import Mathlib

/-!
Verification of the Opulent Voice receiver (`opulent_voice_receiver.py`).

Byte strings are modelled as `List Nat` (each element one byte). The OPUS
decoder and the audio device are external collaborators; the decoder is a
function parameter `List Nat → Option (List Nat)` returning the PCM chunk
on success and `none` on decode failure. Wall-clock timestamps
(`timestamp`, `last_audio_time`) and printing are diagnostics only and are
omitted from the model.
-/

namespace OpulentVoiceProtocol

/-- `MAGIC_BYTES = b'\xFF\x5D'`, the sync word. -/
def MAGIC_BYTES : List Nat := [0xFF, 0x5D]

def FRAME_TYPE_AUDIO : Nat := 0x01
def FRAME_TYPE_TEXT : Nat := 0x02
def FRAME_TYPE_CONTROL : Nat := 0x03
def FRAME_TYPE_DATA : Nat := 0x04

def HEADER_SIZE : Nat := 14

/-- A parsed frame, the dict returned by `parse_frame` (the wall-clock
`timestamp` field is omitted). -/
structure Frame where
  station_id : List Nat
  type : Nat
  sequence : Nat
  payload : List Nat
deriving Repr, DecidableEq

/-- `OpulentVoiceProtocol.parse_frame`: checks the length and the magic
bytes, then unpacks `'>2s 6s B H H B'` from the first 14 bytes and slices
`frame_data[14 : 14 + payload_len]` as the payload. Python slicing
truncates silently, which the `List.take` reproduces. The `struct.error`
branch is unreachable because the slice passed to `unpack` always has
exactly `HEADER_SIZE` bytes. -/
def parse_frame (frame_data : List Nat) : Option Frame :=
  if frame_data.length < HEADER_SIZE then
    none
  else
    let header := frame_data.take HEADER_SIZE
    let magic := header.take 2
    let station_id := (header.drop 2).take 6
    let frame_type := header.getD 8 0
    let sequence := header.getD 9 0 * 256 + header.getD 10 0
    let payload_len := header.getD 11 0 * 256 + header.getD 12 0
    if magic ≠ MAGIC_BYTES then
      none
    else
      some { station_id := station_id
             type := frame_type
             sequence := sequence
             payload := (frame_data.drop HEADER_SIZE).take payload_len }

/-- The 16-bit payload-length field declared in a datagram's header. -/
def declared_payload_len (frame_data : List Nat) : Nat :=
  (frame_data.take HEADER_SIZE).getD 11 0 * 256 +
    (frame_data.take HEADER_SIZE).getD 12 0

/-- Modelled from the spec: the big-endian wire format
`magic(2) = 0xFF 0x5D | stationId(6) | frameType(1) | sequence(2) |
payloadLen(2) | reserved(1) | payload(payloadLen)`. The repository has no
sender, so the encoder exists only as this wire-format description. -/
def encode_frame (station_id : List Nat) (frame_type : Nat) (sequence : Nat)
    (payload : List Nat) : List Nat :=
  MAGIC_BYTES ++ station_id ++ [frame_type] ++
    [sequence / 256, sequence % 256] ++
    [payload.length / 256, payload.length % 256] ++ [0] ++ payload

end OpulentVoiceProtocol

namespace AudioPlayer

/-- `queue.Queue(maxsize=50)` — buffer up to 50 frames. -/
def QUEUE_MAXSIZE : Nat := 50

/-- The mutable state of `AudioPlayer`: the playback queue (front = oldest)
and the statistics counters. `sample_rate` and `channels` are fixed at
construction. -/
structure State where
  sample_rate : Nat
  channels : Nat
  audio_queue : List (List Nat)
  frames_decoded : Nat
  frames_played : Nat
  decode_errors : Nat
  queue_overflows : Nat
deriving Repr, DecidableEq

/-- `AudioPlayer.__init__(sample_rate=48000, channels=1)`: empty queue,
all counters zero. -/
def initState : State :=
  { sample_rate := 48000
    channels := 1
    audio_queue := []
    frames_decoded := 0
    frames_played := 0
    decode_errors := 0
    queue_overflows := 0 }

/-- `AudioPlayer.audio_callback`: if the queue is non-empty, pop the oldest
chunk and return it (with `paContinue`, modelled as `true`), incrementing
`frames_played`; otherwise return `b'\x00' * (frame_count * 2 * channels)`.
The function is total: it never blocks and no exception escapes. -/
def audio_callback (s : State) (frame_count : Nat) :
    (List Nat × Bool) × State :=
  match s.audio_queue with
  | audio_data :: rest =>
      ((audio_data, true),
        { s with audio_queue := rest, frames_played := s.frames_played + 1 })
  | [] =>
      ((List.replicate (frame_count * 2 * s.channels) 0, true), s)

/-- `AudioPlayer.decode_and_queue_audio`: decode the OPUS packet; on
failure count a decode error and return with the queue untouched; on
success count the decode, evict the oldest chunk if the queue is full
(counting a `queue_overflows`), and append the new chunk. -/
def decode_and_queue_audio (decoder : List Nat → Option (List Nat))
    (opus_packet : List Nat) (s : State) : State :=
  match decoder opus_packet with
  | none =>
      { s with decode_errors := s.decode_errors + 1 }
  | some pcm_audio =>
      let s1 := { s with frames_decoded := s.frames_decoded + 1 }
      let s2 :=
        if QUEUE_MAXSIZE ≤ s1.audio_queue.length then
          { s1 with audio_queue := s1.audio_queue.tail
                    queue_overflows := s1.queue_overflows + 1 }
        else s1
      { s2 with audio_queue := s2.audio_queue ++ [pcm_audio] }

/-- A sequence of calls to `decode_and_queue_audio`, one per packet. -/
def run_enqueues (decoder : List Nat → Option (List Nat))
    (packets : List (List Nat)) (s : State) : State :=
  packets.foldl (fun t p => decode_and_queue_audio decoder p t) s

end AudioPlayer

/-- Python's `bytes.decode('utf-8', errors='ignore')` continuation-byte
test: `0x80 ≤ b ≤ 0xBF`. -/
def isUtf8Cont (b : Nat) : Bool := 0x80 ≤ b && b ≤ 0xBF

/-- Python's `bytes.decode('utf-8', errors='ignore')`, as the list of
decoded code points: valid sequences decode normally; an invalid maximal
subpart is skipped and decoding resumes at the first byte that could not
extend it. -/
def utf8DecodeIgnore : List Nat → List Nat
  | [] => []
  | b :: rest =>
    if b < 0x80 then
      b :: utf8DecodeIgnore rest
    else if 0xC2 ≤ b && b ≤ 0xDF then
      match rest with
      | [] => []
      | c1 :: r1 =>
        if isUtf8Cont c1 then
          ((b - 0xC0) * 0x40 + (c1 - 0x80)) :: utf8DecodeIgnore r1
        else
          utf8DecodeIgnore (c1 :: r1)
    else if 0xE0 ≤ b && b ≤ 0xEF then
      let lo1 := if b = 0xE0 then 0xA0 else 0x80
      let hi1 := if b = 0xED then 0x9F else 0xBF
      match rest with
      | [] => []
      | c1 :: r1 =>
        if lo1 ≤ c1 && c1 ≤ hi1 then
          match r1 with
          | [] => []
          | c2 :: r2 =>
            if isUtf8Cont c2 then
              ((b - 0xE0) * 0x1000 + (c1 - 0x80) * 0x40 + (c2 - 0x80)) ::
                utf8DecodeIgnore r2
            else
              utf8DecodeIgnore (c2 :: r2)
        else
          utf8DecodeIgnore (c1 :: r1)
    else if 0xF0 ≤ b && b ≤ 0xF4 then
      let lo1 := if b = 0xF0 then 0x90 else 0x80
      let hi1 := if b = 0xF4 then 0x8F else 0xBF
      match rest with
      | [] => []
      | c1 :: r1 =>
        if lo1 ≤ c1 && c1 ≤ hi1 then
          match r1 with
          | [] => []
          | c2 :: r2 =>
            if isUtf8Cont c2 then
              match r2 with
              | [] => []
              | c3 :: r3 =>
                if isUtf8Cont c3 then
                  ((b - 0xF0) * 0x40000 + (c1 - 0x80) * 0x1000 +
                    (c2 - 0x80) * 0x40 + (c3 - 0x80)) :: utf8DecodeIgnore r3
                else
                  utf8DecodeIgnore (c3 :: r3)
            else
              utf8DecodeIgnore (c2 :: r2)
        else
          utf8DecodeIgnore (c1 :: r1)
    else
      utf8DecodeIgnore rest

namespace OpulentVoiceReceiver

/-- The byte (and code-point) sequence of the string `"PTT_START"`. -/
def PTT_START_BYTES : List Nat := [0x50, 0x54, 0x54, 0x5F, 0x53, 0x54, 0x41, 0x52, 0x54]

/-- The byte (and code-point) sequence of the string `"PTT_STOP"`. -/
def PTT_STOP_BYTES : List Nat := [0x50, 0x54, 0x54, 0x5F, 0x53, 0x54, 0x4F, 0x50]

/-- The receiver's statistics dict (`self.stats` in
`OpulentVoiceReceiver.__init__`). -/
structure Stats where
  packets_received : Nat
  valid_frames : Nat
  audio_frames : Nat
  control_frames : Nat
  invalid_frames : Nat
  bytes_received : Nat
deriving Repr, DecidableEq

/-- The receiver state touched by `process_frame` and `listen_loop`:
the statistics, the PTT flag, and the owned `AudioPlayer`. -/
structure State where
  stats : Stats
  ptt_active : Bool
  audio_player : AudioPlayer.State
deriving Repr, DecidableEq

/-- `OpulentVoiceReceiver.__init__`: all counters zero, PTT inactive,
fresh audio player. -/
def initState : State :=
  { stats :=
      { packets_received := 0
        valid_frames := 0
        audio_frames := 0
        control_frames := 0
        invalid_frames := 0
        bytes_received := 0 }
    ptt_active := false
    audio_player := AudioPlayer.initState }

/-- `OpulentVoiceReceiver.process_frame`: parse the datagram; on failure
increment `invalid_frames` and return; on success increment
`valid_frames` and dispatch on the frame type. Audio frames are decoded
and queued; Control frames are decoded as lossy UTF-8 and compared with
`"PTT_START"` / `"PTT_STOP"`; Text and unknown-type frames are only
printed. -/
def process_frame (decoder : List Nat → Option (List Nat))
    (frame_data : List Nat) (s : State) : State :=
  match OpulentVoiceProtocol.parse_frame frame_data with
  | none =>
      { s with stats := { s.stats with invalid_frames := s.stats.invalid_frames + 1 } }
  | some parsed_frame =>
      let s1 := { s with stats := { s.stats with valid_frames := s.stats.valid_frames + 1 } }
      if parsed_frame.type = OpulentVoiceProtocol.FRAME_TYPE_AUDIO then
        let s2 := { s1 with stats := { s1.stats with audio_frames := s1.stats.audio_frames + 1 } }
        { s2 with audio_player :=
            AudioPlayer.decode_and_queue_audio decoder parsed_frame.payload s2.audio_player }
      else if parsed_frame.type = OpulentVoiceProtocol.FRAME_TYPE_CONTROL then
        let s2 := { s1 with stats := { s1.stats with control_frames := s1.stats.control_frames + 1 } }
        let message := utf8DecodeIgnore parsed_frame.payload
        if message = PTT_START_BYTES then
          { s2 with ptt_active := true }
        else if message = PTT_STOP_BYTES then
          { s2 with ptt_active := false }
        else
          s2
      else if parsed_frame.type = OpulentVoiceProtocol.FRAME_TYPE_TEXT then
        s1
      else
        s1

/-- One successful receive iteration of `OpulentVoiceReceiver.listen_loop`:
`recvfrom` delivered `data`, so `packets_received` and `bytes_received`
are incremented first and then `process_frame` runs on the datagram. -/
def receive_step (decoder : List Nat → Option (List Nat))
    (data : List Nat) (s : State) : State :=
  let s1 :=
    { s with stats :=
        { s.stats with
            packets_received := s.stats.packets_received + 1
            bytes_received := s.stats.bytes_received + data.length } }
  process_frame decoder data s1

end OpulentVoiceReceiver

/-! ## Theorems -/

open OpulentVoiceProtocol AudioPlayer OpulentVoiceReceiver

/-- Helper: `process_frame` never touches `packets_received` or
`bytes_received`; only `listen_loop` updates them. -/
theorem process_frame_preserves_packet_counters
    (decoder : List Nat → Option (List Nat)) (data : List Nat)
    (s : OpulentVoiceReceiver.State) :
    (process_frame decoder data s).stats.packets_received
        = s.stats.packets_received ∧
      (process_frame decoder data s).stats.bytes_received
        = s.stats.bytes_received := by
  unfold process_frame
  rcases OpulentVoiceProtocol.parse_frame data with _ | f
  · simp
  · simp only []
    split
    · simp
    · split
      · split
        · simp
        · split <;> simp
      · split <;> simp

/-- C7: when the playback buffer is empty, `audio_callback` returns a
silence chunk — all-zero bytes of exactly `frame_count * 2 * channels`
bytes — leaves the state unchanged, and (being a total function defined
without any wait) never blocks. -/
theorem audio_callback_empty_returns_exact_silence
    (s : AudioPlayer.State) (frame_count : Nat) (h : s.audio_queue = []) :
    audio_callback s frame_count
        = ((List.replicate (frame_count * 2 * s.channels) 0, true), s) ∧
      ((audio_callback s frame_count).1.1).length
        = frame_count * 2 * s.channels := by
  unfold audio_callback
  rw [h]
  simp

/-- Witness for C7 at `frame_count = 960` on the freshly initialised
player (empty buffer, one channel): 1920 bytes of silence. -/
theorem audio_callback_empty_returns_exact_silence_witness :
    audio_callback AudioPlayer.initState 960
        = ((List.replicate 1920 0, true), AudioPlayer.initState) ∧
      ((audio_callback AudioPlayer.initState 960).1.1).length = 1920 :=
  audio_callback_empty_returns_exact_silence AudioPlayer.initState 960 rfl

/-- C9: when the playback buffer is non-empty, `audio_callback` returns
the oldest queued chunk exactly as enqueued — independent of the requested
`frame_count` — and pops it, incrementing `frames_played`; moreover there
is a buffer state and a request for which the returned chunk's length
differs from `frame_count * 2 * channels`. -/
theorem audio_callback_nonempty_returns_oldest
    (s : AudioPlayer.State) (frame_count : Nat) (c : List Nat)
    (rest : List (List Nat)) (h : s.audio_queue = c :: rest) :
    audio_callback s frame_count
        = ((c, true),
            { s with audio_queue := rest,
                     frames_played := s.frames_played + 1 }) ∧
      ((audio_callback
          { AudioPlayer.initState with audio_queue := [[1, 2, 3]] } 960).1.1).length
        ≠ 960 * 2 * 1 := by
  constructor
  · unfold audio_callback
    rw [h]
  · decide

/-- Witness for C9: a buffer holding the single 2-byte chunk `[5, 6]`
returns that chunk for a 960-frame request. -/
theorem audio_callback_nonempty_returns_oldest_witness :
    audio_callback { AudioPlayer.initState with audio_queue := [[5, 6]] } 960
        = (([5, 6], true),
            { AudioPlayer.initState with audio_queue := [],
                                         frames_played := 1 }) :=
  (audio_callback_nonempty_returns_oldest
    { AudioPlayer.initState with audio_queue := [[5, 6]] } 960 [5, 6] [] rfl).1

/-- C8: `parse_frame` fails on every input shorter than the 14-byte
header, and on every input of at least 14 bytes whose first two bytes are
not the magic marker `0xFF 0x5D`; being a total function into `Option`
(the `struct.error` handler is unreachable), no exception escapes it. -/
theorem parse_frame_rejects_short_and_bad_magic (data : List Nat) :
    (data.length < HEADER_SIZE → parse_frame data = none) ∧
      (HEADER_SIZE ≤ data.length → data.take 2 ≠ MAGIC_BYTES →
        parse_frame data = none) := by
  constructor
  · intro h
    unfold parse_frame
    rw [if_pos h]
  · intro hlen hmagic
    unfold parse_frame
    rw [if_neg (by omega)]
    have h2 : (data.take HEADER_SIZE).take 2 = data.take 2 := by
      rw [List.take_take, show (2 ⊓ HEADER_SIZE) = 2 from by decide]
    simp only [h2]
    rw [if_pos hmagic]

/-- Witness for C8: a 2-byte datagram and a 14-byte datagram with wrong
magic both fail to parse. -/
theorem parse_frame_rejects_short_and_bad_magic_witness :
    parse_frame [0xFF, 0x5D] = none ∧
      parse_frame [0xFF, 0x5E, 0, 0, 0, 0, 0, 0, 1, 0, 0, 0, 0, 0] = none :=
  ⟨(parse_frame_rejects_short_and_bad_magic [0xFF, 0x5D]).1 (by decide),
   (parse_frame_rejects_short_and_bad_magic
      [0xFF, 0x5E, 0, 0, 0, 0, 0, 0, 1, 0, 0, 0, 0, 0]).2
     (by decide) (by decide)⟩

/-- C10: every receive iteration of `listen_loop` increments
`packets_received` by exactly 1 and `bytes_received` by the datagram's
length, whether or not the datagram parses as a valid frame. -/
theorem receive_step_counts_packets_and_bytes
    (decoder : List Nat → Option (List Nat)) (data : List Nat)
    (s : OpulentVoiceReceiver.State) :
    (receive_step decoder data s).stats.packets_received
        = s.stats.packets_received + 1 ∧
      (receive_step decoder data s).stats.bytes_received
        = s.stats.bytes_received + data.length := by
  unfold receive_step
  constructor
  · rw [(process_frame_preserves_packet_counters decoder data _).1]
  · rw [(process_frame_preserves_packet_counters decoder data _).2]

/-- C1 counterexample: a 14-byte datagram with valid magic declaring a
5-byte payload but carrying 0 payload bytes is parsed successfully —
`parse_frame` constructs a Frame whose payload is empty rather than
failing, because the Python slice `frame_data[14:14+payload_len]`
truncates silently. -/
theorem parse_oversized_declared_len_succeeds_cex :
    parse_frame [0xFF, 0x5D, 0, 0, 0, 0, 0, 0, 1, 0, 0, 0, 5, 0]
        = some { station_id := [0, 0, 0, 0, 0, 0], type := 1,
                 sequence := 0, payload := [] } ∧
      declared_payload_len [0xFF, 0x5D, 0, 0, 0, 0, 0, 0, 1, 0, 0, 0, 5, 0]
        = 5 := by
  decide

/-- C1 amended: `parse_frame` does not validate the declared payload
length against the available bytes; whenever it succeeds, the returned
payload has `min(payloadLen, available)` bytes — the declared length
truncated to what follows the 14-byte header. -/
theorem parse_success_payload_is_truncated (data : List Nat) (f : Frame)
    (h : parse_frame data = some f) :
    f.payload.length
      = min (declared_payload_len data) (data.length - HEADER_SIZE) := by
  simp only [parse_frame] at h
  split at h
  · exact absurd h (by simp)
  · split at h
    · exact absurd h (by simp)
    · rw [Option.some.injEq] at h
      subst h
      simp [declared_payload_len, List.length_take, List.length_drop]

/-- Witness for the amended C1 at the counterexample datagram: the parsed
payload has `min 5 0 = 0` bytes. -/
theorem parse_success_payload_is_truncated_witness :
    (Frame.mk [0, 0, 0, 0, 0, 0] 1 0 []).payload.length
      = min (declared_payload_len
              [0xFF, 0x5D, 0, 0, 0, 0, 0, 0, 1, 0, 0, 0, 5, 0])
            ([0xFF, 0x5D, 0, 0, 0, 0, 0, 0, 1, 0, 0, 0, 5, 0].length
              - HEADER_SIZE) :=
  parse_success_payload_is_truncated
    [0xFF, 0x5D, 0, 0, 0, 0, 0, 0, 1, 0, 0, 0, 5, 0]
    (Frame.mk [0, 0, 0, 0, 0, 0] 1 0 []) (by decide)

/-- C2 counterexample: a valid Text frame (type `0x02`, payload `"AB"`)
is dispatched but increments no type-specific counter — only
`valid_frames` changes, because `process_frame` has no text counter and
its Text branch only prints. -/
theorem text_frame_increments_no_type_counter_cex :
    (parse_frame [0xFF, 0x5D, 0, 0, 0, 0, 0, 0, 2, 0, 0, 0, 2, 0, 65, 66]).map
        Frame.type = some FRAME_TYPE_TEXT ∧
      (process_frame (fun _ => none)
          [0xFF, 0x5D, 0, 0, 0, 0, 0, 0, 2, 0, 0, 0, 2, 0, 65, 66]
          OpulentVoiceReceiver.initState).stats.valid_frames = 1 ∧
      (process_frame (fun _ => none)
          [0xFF, 0x5D, 0, 0, 0, 0, 0, 0, 2, 0, 0, 0, 2, 0, 65, 66]
          OpulentVoiceReceiver.initState).stats.audio_frames = 0 ∧
      (process_frame (fun _ => none)
          [0xFF, 0x5D, 0, 0, 0, 0, 0, 0, 2, 0, 0, 0, 2, 0, 65, 66]
          OpulentVoiceReceiver.initState).stats.control_frames = 0 ∧
      (process_frame (fun _ => none)
          [0xFF, 0x5D, 0, 0, 0, 0, 0, 0, 2, 0, 0, 0, 2, 0, 65, 66]
          OpulentVoiceReceiver.initState).stats.invalid_frames = 0 := by
  decide

/-- C2 amended: a datagram that fails parsing increments only
`invalid_frames` and nothing else changes (no dispatch). A datagram that
parses increments `valid_frames` by 1, and additionally `audio_frames`
exactly when the frame type is Audio and `control_frames` exactly when it
is Control; Text, Data, and unknown-type frames increment no
type-specific counter (none exists in the code). -/
theorem process_frame_counter_update
    (decoder : List Nat → Option (List Nat)) (data : List Nat)
    (s : OpulentVoiceReceiver.State) :
    (parse_frame data = none →
        process_frame decoder data s
          = { s with stats :=
                { s.stats with
                    invalid_frames := s.stats.invalid_frames + 1 } }) ∧
      (∀ f : Frame, parse_frame data = some f →
        (process_frame decoder data s).stats.valid_frames
            = s.stats.valid_frames + 1 ∧
          (process_frame decoder data s).stats.invalid_frames
            = s.stats.invalid_frames ∧
          (process_frame decoder data s).stats.audio_frames
            = s.stats.audio_frames
                + (if f.type = FRAME_TYPE_AUDIO then 1 else 0) ∧
          (process_frame decoder data s).stats.control_frames
            = s.stats.control_frames
                + (if f.type = FRAME_TYPE_CONTROL then 1 else 0)) := by
  constructor
  · intro h
    unfold process_frame
    rw [h]
  · intro f h
    unfold process_frame
    rw [h]
    simp only []
    split_ifs <;>
      simp_all [OpulentVoiceProtocol.FRAME_TYPE_AUDIO,
        OpulentVoiceProtocol.FRAME_TYPE_CONTROL,
        OpulentVoiceProtocol.FRAME_TYPE_TEXT]

/-- Witness for the amended C2: a 2-byte datagram increments only
`invalid_frames`; the Text frame of the counterexample increments
`valid_frames` alone among the frame counters. -/
theorem process_frame_counter_update_witness :
    (process_frame (fun _ => none) [0, 1] OpulentVoiceReceiver.initState
        = { OpulentVoiceReceiver.initState with stats :=
              { OpulentVoiceReceiver.initState.stats with
                  invalid_frames := 1 } }) ∧
      ((process_frame (fun _ => none)
          [0xFF, 0x5D, 0, 0, 0, 0, 0, 0, 2, 0, 0, 0, 2, 0, 65, 66]
          OpulentVoiceReceiver.initState).stats.valid_frames = 1 ∧
        (process_frame (fun _ => none)
          [0xFF, 0x5D, 0, 0, 0, 0, 0, 0, 2, 0, 0, 0, 2, 0, 65, 66]
          OpulentVoiceReceiver.initState).stats.invalid_frames = 0 ∧
        (process_frame (fun _ => none)
          [0xFF, 0x5D, 0, 0, 0, 0, 0, 0, 2, 0, 0, 0, 2, 0, 65, 66]
          OpulentVoiceReceiver.initState).stats.audio_frames = 0 + (if (2 : Nat) = FRAME_TYPE_AUDIO then 1 else 0) ∧
        (process_frame (fun _ => none)
          [0xFF, 0x5D, 0, 0, 0, 0, 0, 0, 2, 0, 0, 0, 2, 0, 65, 66]
          OpulentVoiceReceiver.initState).stats.control_frames = 0 + (if (2 : Nat) = FRAME_TYPE_CONTROL then 1 else 0)) :=
  ⟨(process_frame_counter_update (fun _ => none) [0, 1]
      OpulentVoiceReceiver.initState).1 (by decide),
   (process_frame_counter_update (fun _ => none)
      [0xFF, 0x5D, 0, 0, 0, 0, 0, 0, 2, 0, 0, 0, 2, 0, 65, 66]
      OpulentVoiceReceiver.initState).2
     (Frame.mk [0, 0, 0, 0, 0, 0] 2 0 [65, 66]) (by decide)⟩

/-- C3 counterexample: a Control frame whose payload is the ten bytes
`b"PTT_START\xff"` — not exactly `b"PTT_START"` — still sets the PTT flag
active, because `payload.decode('utf-8', errors='ignore')` drops the
invalid `0xFF` byte before the comparison. -/
theorem control_inexact_payload_sets_ptt_cex :
    (parse_frame
        ([0xFF, 0x5D, 0, 0, 0, 0, 0, 0, 3, 0, 0, 0, 10, 0]
          ++ PTT_START_BYTES ++ [0xFF])).map Frame.payload
        = some (PTT_START_BYTES ++ [0xFF]) ∧
      PTT_START_BYTES ++ [0xFF] ≠ PTT_START_BYTES ∧
      (process_frame (fun _ => none)
          ([0xFF, 0x5D, 0, 0, 0, 0, 0, 0, 3, 0, 0, 0, 10, 0]
            ++ PTT_START_BYTES ++ [0xFF])
          OpulentVoiceReceiver.initState).ptt_active = true := by
  decide

/-- C3 amended: the PTT comparison is on the lossy UTF-8 decoding of the
Control payload, not on the raw bytes: a Control frame whose payload
decodes (invalid bytes ignored) to exactly `"PTT_START"` sets PTT active,
one decoding to exactly `"PTT_STOP"` sets it inactive, and any Control
payload decoding to anything else leaves the flag unchanged. Exact byte
payloads `b"PTT_START"` / `b"PTT_STOP"` are ASCII and decode to
themselves, so they behave as the original claim states. -/
theorem process_frame_control_ptt
    (decoder : List Nat → Option (List Nat)) (data : List Nat) (f : Frame)
    (s : OpulentVoiceReceiver.State) (h : parse_frame data = some f)
    (htype : f.type = FRAME_TYPE_CONTROL) :
    (utf8DecodeIgnore f.payload = PTT_START_BYTES →
        (process_frame decoder data s).ptt_active = true) ∧
      (utf8DecodeIgnore f.payload = PTT_STOP_BYTES →
        (process_frame decoder data s).ptt_active = false) ∧
      (utf8DecodeIgnore f.payload ≠ PTT_START_BYTES →
        utf8DecodeIgnore f.payload ≠ PTT_STOP_BYTES →
        (process_frame decoder data s).ptt_active = s.ptt_active) := by
  unfold process_frame
  rw [h]
  simp only []
  split_ifs <;>
    simp_all [OpulentVoiceProtocol.FRAME_TYPE_AUDIO,
      OpulentVoiceProtocol.FRAME_TYPE_CONTROL,
      OpulentVoiceProtocol.FRAME_TYPE_TEXT, PTT_START_BYTES, PTT_STOP_BYTES]

/-- Witness for the amended C3: a Control frame whose payload is exactly
`b"PTT_START"` sets the PTT flag active from the initial (inactive)
state. -/
theorem process_frame_control_ptt_witness :
    (process_frame (fun _ => none)
        ([0xFF, 0x5D, 0, 0, 0, 0, 0, 0, 3, 0, 0, 0, 9, 0] ++ PTT_START_BYTES)
        OpulentVoiceReceiver.initState).ptt_active = true :=
  (process_frame_control_ptt (fun _ => none)
      ([0xFF, 0x5D, 0, 0, 0, 0, 0, 0, 3, 0, 0, 0, 9, 0] ++ PTT_START_BYTES)
      (Frame.mk [0, 0, 0, 0, 0, 0] 3 0 PTT_START_BYTES)
      OpulentVoiceReceiver.initState (by decide) (by decide)).1 (by decide)

/-- C6: processing a valid Audio frame whose payload fails decoding
increments `valid_frames`, `audio_frames`, and the audio player's
`decode_errors` by exactly 1 each, and leaves the playback queue, the
`frames_decoded` count and the `queue_overflows` count unchanged; the
call is a total function, so it returns normally on decode failure. -/
theorem audio_decode_failure_counts
    (decoder : List Nat → Option (List Nat)) (data : List Nat) (f : Frame)
    (s : OpulentVoiceReceiver.State) (h : parse_frame data = some f)
    (htype : f.type = FRAME_TYPE_AUDIO) (hdec : decoder f.payload = none) :
    (process_frame decoder data s).stats.valid_frames
        = s.stats.valid_frames + 1 ∧
      (process_frame decoder data s).stats.audio_frames
        = s.stats.audio_frames + 1 ∧
      (process_frame decoder data s).audio_player.decode_errors
        = s.audio_player.decode_errors + 1 ∧
      (process_frame decoder data s).audio_player.audio_queue
        = s.audio_player.audio_queue ∧
      (process_frame decoder data s).audio_player.frames_decoded
        = s.audio_player.frames_decoded ∧
      (process_frame decoder data s).audio_player.queue_overflows
        = s.audio_player.queue_overflows := by
  unfold process_frame
  rw [h]
  simp only [htype, AudioPlayer.decode_and_queue_audio, hdec]
  simp [OpulentVoiceProtocol.FRAME_TYPE_AUDIO]

/-- Witness for C6: a valid Audio frame carrying a 20-byte dummy payload,
processed with a decoder that rejects it, from the initial state. -/
theorem audio_decode_failure_counts_witness :
    (process_frame (fun _ => none)
        ([0xFF, 0x5D, 0, 0, 0, 0, 0, 0, 1, 0, 0, 0, 20, 0]
          ++ List.replicate 20 7)
        OpulentVoiceReceiver.initState).stats.valid_frames = 0 + 1 ∧
      (process_frame (fun _ => none)
          ([0xFF, 0x5D, 0, 0, 0, 0, 0, 0, 1, 0, 0, 0, 20, 0]
            ++ List.replicate 20 7)
          OpulentVoiceReceiver.initState).stats.audio_frames = 0 + 1 ∧
      (process_frame (fun _ => none)
          ([0xFF, 0x5D, 0, 0, 0, 0, 0, 0, 1, 0, 0, 0, 20, 0]
            ++ List.replicate 20 7)
          OpulentVoiceReceiver.initState).audio_player.decode_errors
        = 0 + 1 ∧
      (process_frame (fun _ => none)
          ([0xFF, 0x5D, 0, 0, 0, 0, 0, 0, 1, 0, 0, 0, 20, 0]
            ++ List.replicate 20 7)
          OpulentVoiceReceiver.initState).audio_player.audio_queue = [] ∧
      (process_frame (fun _ => none)
          ([0xFF, 0x5D, 0, 0, 0, 0, 0, 0, 1, 0, 0, 0, 20, 0]
            ++ List.replicate 20 7)
          OpulentVoiceReceiver.initState).audio_player.frames_decoded = 0 ∧
      (process_frame (fun _ => none)
          ([0xFF, 0x5D, 0, 0, 0, 0, 0, 0, 1, 0, 0, 0, 20, 0]
            ++ List.replicate 20 7)
          OpulentVoiceReceiver.initState).audio_player.queue_overflows
        = 0 :=
  audio_decode_failure_counts (fun _ => none)
    ([0xFF, 0x5D, 0, 0, 0, 0, 0, 0, 1, 0, 0, 0, 20, 0]
      ++ List.replicate 20 7)
    (Frame.mk [0, 0, 0, 0, 0, 0] 1 0 (List.replicate 20 7))
    OpulentVoiceReceiver.initState (by decide) (by decide) (by decide)

/-- Helper for C4: running `decode_and_queue_audio` with an
always-successful decoder from any state whose queue is within capacity
leaves the last `capacity` chunks of (old queue ++ decoded packets) and
counts one overflow per chunk pushed out. -/
theorem run_enqueues_spec (dec : List Nat → List Nat) :
    ∀ (ps : List (List Nat)) (s : AudioPlayer.State),
      s.audio_queue.length ≤ QUEUE_MAXSIZE →
      (run_enqueues (fun p => some (dec p)) ps s).audio_queue
          = (s.audio_queue ++ ps.map dec).drop
              (s.audio_queue.length + ps.length - QUEUE_MAXSIZE) ∧
        (run_enqueues (fun p => some (dec p)) ps s).queue_overflows
          = s.queue_overflows
              + (s.audio_queue.length + ps.length - QUEUE_MAXSIZE) := by
  intro ps
  induction ps with
  | nil =>
      intro s hs
      have h0 : s.audio_queue.length - QUEUE_MAXSIZE = 0 :=
        Nat.sub_eq_zero_of_le hs
      simp [run_enqueues, h0]
  | cons p ps ih =>
      intro s hs
      have hstep : run_enqueues (fun p => some (dec p)) (p :: ps) s
          = run_enqueues (fun p => some (dec p)) ps
              (decode_and_queue_audio (fun p => some (dec p)) p s) := by
        simp [run_enqueues]
      rw [hstep]
      by_cases hfull : QUEUE_MAXSIZE ≤ s.audio_queue.length
      · have hq : s.audio_queue.length = QUEUE_MAXSIZE :=
          Nat.le_antisymm hs hfull
        rcases hQ : s.audio_queue with _ | ⟨chead, ctail⟩
        · rw [hQ] at hq
          simp [QUEUE_MAXSIZE] at hq
        · have hfull2 : QUEUE_MAXSIZE ≤ (chead :: ctail).length := by
            rw [← hQ]; exact hfull
          have hs1 : decode_and_queue_audio (fun p => some (dec p)) p s
              = { s with audio_queue := ctail ++ [dec p],
                         frames_decoded := s.frames_decoded + 1,
                         queue_overflows := s.queue_overflows + 1 } := by
            have hfull3 : QUEUE_MAXSIZE ≤ ctail.length + 1 := by
              simpa using hfull2
            simp [decode_and_queue_audio, hQ, hfull3]
          rw [hs1]
          have hlen : ctail.length + 1 = QUEUE_MAXSIZE := by
            rw [hQ] at hq; simpa using hq
          obtain ⟨ihq, ihov⟩ := ih
            { s with audio_queue := ctail ++ [dec p],
                     frames_decoded := s.frames_decoded + 1,
                     queue_overflows := s.queue_overflows + 1 }
            (by simp; omega)
          refine ⟨?_, ?_⟩
          · rw [ihq]
            simp only [hQ, List.map_cons, List.length_cons]
            have harith1 : (ctail ++ [dec p]).length + ps.length
                - QUEUE_MAXSIZE = ps.length := by simp; omega
            have harith2 : ctail.length + 1 + (ps.length + 1)
                - QUEUE_MAXSIZE = ps.length + 1 := by omega
            rw [harith1, harith2]
            rw [List.append_assoc]
            rw [show (chead :: ctail) ++ dec p :: List.map dec ps
                = chead :: (ctail ++ dec p :: List.map dec ps) from rfl]
            rw [List.drop_succ_cons]
            simp
          · rw [ihov]
            simp only [hQ]
            simp
            omega
      · have hnotfull : ¬ QUEUE_MAXSIZE ≤ s.audio_queue.length := hfull
        have hs1 : decode_and_queue_audio (fun p => some (dec p)) p s
            = { s with audio_queue := s.audio_queue ++ [dec p],
                       frames_decoded := s.frames_decoded + 1 } := by
          simp [decode_and_queue_audio, hnotfull]
        rw [hs1]
        obtain ⟨ihq, ihov⟩ := ih
          { s with audio_queue := s.audio_queue ++ [dec p],
                   frames_decoded := s.frames_decoded + 1 }
          (by simp; omega)
        refine ⟨?_, ?_⟩
        · rw [ihq]
          simp only [List.map_cons, List.length_cons, List.length_append,
            List.length_cons, List.append_assoc, List.cons_append,
            List.nil_append, List.length_nil]
          have harith : s.audio_queue.length + 1 + ps.length
              = s.audio_queue.length + (ps.length + 1) := by omega
          simp [harith]
        · rw [ihov]
          simp
          omega

/-- C4: after any sequence of `n` successful audio enqueues into the
initially empty capacity-50 playback buffer, the buffer holds exactly the
most recent `min n 50` decoded chunks in arrival order (the oldest having
been evicted first), its length is `min n 50` — never exceeding 50 — and
`queue_overflows` reads `n - 50` (truncated subtraction, i.e.
`max 0 (n - 50)`); in particular 60 enqueues leave length 50 and 10
evictions. -/
theorem playback_buffer_bounded_fifo (dec : List Nat → List Nat)
    (ps : List (List Nat)) :
    (run_enqueues (fun p => some (dec p)) ps AudioPlayer.initState).audio_queue
        = (ps.map dec).drop (ps.length - QUEUE_MAXSIZE) ∧
      (run_enqueues (fun p => some (dec p)) ps
          AudioPlayer.initState).audio_queue.length
        = min ps.length QUEUE_MAXSIZE ∧
      (run_enqueues (fun p => some (dec p)) ps
          AudioPlayer.initState).queue_overflows
        = ps.length - QUEUE_MAXSIZE := by
  obtain ⟨hq, hov⟩ := run_enqueues_spec dec ps AudioPlayer.initState
    (by simp [AudioPlayer.initState, QUEUE_MAXSIZE])
  have hinit : AudioPlayer.initState.audio_queue = [] := rfl
  rw [hinit] at hq
  simp only [List.nil_append, List.length_nil, Nat.zero_add] at hq
  refine ⟨hq, ?_, ?_⟩
  · rw [hq, List.length_drop, List.length_map]
    omega
  · rw [hov]
    simp [AudioPlayer.initState]

/-- Helper for C5: round-trip with the station id given as six explicit
bytes. -/
theorem parse_encode_roundtrip_aux (a b c d e f ft seqn : Nat)
    (payload : List Nat) :
    parse_frame (encode_frame [a, b, c, d, e, f] ft seqn payload)
      = some (Frame.mk [a, b, c, d, e, f] ft seqn payload) := by
  have henc : encode_frame [a, b, c, d, e, f] ft seqn payload
      = [0xFF, 0x5D, a, b, c, d, e, f, ft, seqn / 256, seqn % 256,
         payload.length / 256, payload.length % 256, 0] ++ payload := by
    simp [encode_frame, MAGIC_BYTES]
  rw [henc]
  have hcond : ¬ (([0xFF, 0x5D, a, b, c, d, e, f, ft, seqn / 256, seqn % 256,
      payload.length / 256, payload.length % 256, 0] ++ payload).length
        < HEADER_SIZE) := by
    simp [HEADER_SIZE]
  simp only [parse_frame]
  rw [if_neg hcond]
  show (if ([0xFF, 0x5D] : List Nat) ≠ MAGIC_BYTES then none
        else some (Frame.mk [a, b, c, d, e, f] ft
          (seqn / 256 * 256 + seqn % 256)
          (payload.take (payload.length / 256 * 256 + payload.length % 256))))
      = some (Frame.mk [a, b, c, d, e, f] ft seqn payload)
  rw [if_neg (by decide)]
  have h1 : seqn / 256 * 256 + seqn % 256 = seqn := by omega
  have h2 : payload.length / 256 * 256 + payload.length % 256
      = payload.length := by omega
  rw [h1, h2, List.take_length]

/-- C5: encoding `(stationId, frameType, sequence, payload)` per the
spec's big-endian wire format and parsing the result yields a Frame with
exactly those fields, for every 6-byte station id, frame-type byte,
16-bit sequence number, and payload of length at most 4082
(= 4096 − 14). -/
theorem encode_parse_roundtrip (station_id : List Nat)
    (frame_type seqn : Nat) (payload : List Nat)
    (h6 : station_id.length = 6) (hft : frame_type < 256)
    (hseq : seqn < 65536) (hplen : payload.length ≤ 4082) :
    parse_frame (encode_frame station_id frame_type seqn payload)
      = some (Frame.mk station_id frame_type seqn payload) := by
  rcases station_id with _ | ⟨a, _ | ⟨b, _ | ⟨c, _ | ⟨d, _ | ⟨e, _ | ⟨f, _ | ⟨g, t⟩⟩⟩⟩⟩⟩⟩ <;>
    simp only [List.length_cons, List.length_nil] at h6 <;> try omega
  exact parse_encode_roundtrip_aux a b c d e f frame_type seqn payload

/-- Witness for C5 at a concrete frame: station id `[1,2,3,4,5,6]`,
Text type, sequence 258, 3-byte payload. -/
theorem encode_parse_roundtrip_witness :
    parse_frame (encode_frame [1, 2, 3, 4, 5, 6] 2 258 [9, 9, 9])
      = some (Frame.mk [1, 2, 3, 4, 5, 6] 2 258 [9, 9, 9]) :=
  encode_parse_roundtrip [1, 2, 3, 4, 5, 6] 2 258 [9, 9, 9]
    (by decide) (by decide) (by decide) (by decide)
